import Mathlib

/-!
Shallow embedding of the request-lifecycle core of the repository:

* `useGridData` (src/src/hooks/useGridData.ts), "Unit A": fetch keyed by
  `apiUrl` and a `refetchTrigger` counter, with an `AbortController` created
  per effect run and aborted in the effect cleanup.
* `usePollingFetch` (src/unnamed/part_004), "Unit B": fetch keyed by `url`
  and an optional polling `interval`; one `AbortController` and one
  `setInterval` handle per effect run, both released in the cleanup.
* `ProductGrid` (src/src/components/CustomProductCard.tsx): the render-props
  wrapper that exposes `data ?? []` to its children.
* the `useCallback(…, [])` memoisation of `refetchData`.

The JavaScript event loop is modelled at `await` granularity: an attempt
suspends at `await fetch(...)` and at `await response.json()`; a suspended
await resumes either with a real outcome (when the controller was not yet
aborted at resumption time) or with an `AbortError` rejection (once the
controller is aborted, a still-pending await can only reject).  State
mutations (`setData`/`setIsLoading`/`setError`) between suspension points are
synchronous and are folded into the step that performs the resumption.
-/

/-- The `Product` record from src/src/types/product.ts. -/
structure Product where
  id : Int
  name : String
  price : Float
  description : String

/-- A thrown JavaScript value, as discriminated by the catch blocks:
either an `Error` instance (with `name` and `message`) or any other value. -/
inductive JsError where
  | error (name : String) (message : String)
  | other
deriving DecidableEq

/-- The catch blocks' test `err instanceof Error && err.name === 'AbortError'`. -/
def JsError.isAbort : JsError → Bool
  | .error n _ => n == "AbortError"
  | .other => false

/-- The message computation `err instanceof Error ? err.message : 'Failed to fetch data'`
(the fallback in useGridData's catch block). -/
def JsError.messageOf : JsError → String
  | .error _ m => m
  | .other => "Failed to fetch data"

/-- The rejection produced by an aborted `fetch` / body read. -/
def abortError : JsError := .error "AbortError" "The operation was aborted"

/-- How the transport settles `await fetch(url, { signal })` when the signal is
not yet aborted: a response with its `ok` flag and `status`, or a rejection
(e.g. a network `TypeError`). -/
inductive FetchOutcome where
  | http (ok : Bool) (status : Nat)
  | netErr (e : JsError)
deriving DecidableEq

/-- How `await response.json()` settles when the signal is not yet aborted:
a parsed value of the expected shape, or a rejection (parse failure). -/
inductive JsonOutcome (α : Type) where
  | parsed (v : α)
  | parseErr (e : JsError)

/-- Resumption of the `await fetch(...)` line of either hook's `fetchData`,
including the `if (!response.ok) throw new Error(...)` check that follows it
synchronously.  `aborted` is the state of the attempt's controller at the
moment the await resumes: an aborted pending await rejects with `AbortError`.
`Except.ok` means control reaches the `await response.json()` line. -/
def respStage (aborted : Bool) (r : FetchOutcome) : Except JsError Unit :=
  if aborted then .error abortError
  else
    match r with
    | .netErr e => .error e
    | .http ok status =>
        if ok then .ok ()
        else .error (.error "Error" ("HTTP error! status: " ++ toString status))

/-- Resumption of the `await response.json()` line: rejects with `AbortError`
when the controller was aborted while the body read was pending, otherwise
yields the parsed value or the parse failure. -/
def jsonStage {α : Type} (aborted : Bool) (v : JsonOutcome α) : Except JsError α :=
  if aborted then .error abortError
  else
    match v with
    | .parsed val => .ok val
    | .parseErr e => .error e

/-! ## Unit A: useGridData -/

/-- The state triple exposed by `useGridData`:
`data: Product[] | null`, `isLoading: boolean`, `error: string | null`. -/
structure GridResult where
  data : Option (List Product)
  isLoading : Bool
  error : Option String

/-- useGridData's catch block: swallow `AbortError` (return without touching
state), otherwise `setError(message)` and `setIsLoading(false)`. -/
def gridCatch (e : JsError) (r : GridResult) : GridResult :=
  if e.isAbort then r
  else { r with error := some e.messageOf, isLoading := false }

/-- Where an attempt's `fetchData` coroutine is suspended. -/
inductive Phase where
  | awaitingResponse
  | awaitingJson
  | done
deriving DecidableEq

/-- One fetch attempt of useGridData: its effect-run id, whether its
`AbortController` has been aborted, and its suspension point. -/
structure AttemptA where
  id : Nat
  aborted : Bool
  phase : Phase
deriving DecidableEq

def findAttemptA (i : Nat) (as : List AttemptA) : Option AttemptA :=
  as.find? (fun a => a.id == i)

def setPhaseA (i : Nat) (p : Phase) (as : List AttemptA) : List AttemptA :=
  as.map (fun a => if a.id == i then { a with phase := p } else a)

/-- Model of `abortController.abort()` of the effect-run whose id is `cur`. -/
def abortA (cur : Nat) (as : List AttemptA) : List AttemptA :=
  as.map (fun a => if a.id == cur then { a with aborted := true } else a)

/-- A useGridData hook instance: result state, the `refetchTrigger` counter,
the issued attempts, the id of the current (most recently issued) attempt,
a fresh-id supply and a count of attempts issued. -/
structure GridMachine where
  result : GridResult
  refetchTrigger : Nat
  attempts : List AttemptA
  current : Nat
  nextId : Nat
  attemptsIssued : Nat

/-- The body of `refetchData`: `setRefetchTrigger(prev => prev + 1)`. -/
def refetchData (m : GridMachine) : GridMachine :=
  { m with refetchTrigger := m.refetchTrigger + 1 }

/-- One effect run of useGridData (triggered by mount, an `apiUrl` change or
a `refetchTrigger` change): the cleanup of the previous run aborts its
controller, then the new run creates a fresh controller and starts
`fetchData()`, whose synchronous prefix is `setIsLoading(true);
setError(null);` followed by issuing the request. -/
def issueA (m : GridMachine) : GridMachine :=
  { m with
    result := { m.result with isLoading := true, error := none }
    attempts := abortA m.current m.attempts ++ [⟨m.nextId, false, .awaitingResponse⟩]
    current := m.nextId
    nextId := m.nextId + 1
    attemptsIssued := m.attemptsIssued + 1 }

/-- Resumption of attempt `i` at `await fetch(...)`.  `r` is how the transport
would settle the request; an attempt whose controller is already aborted
resumes with an `AbortError` rejection instead, which the catch block
swallows. -/
def deliverRespA (i : Nat) (r : FetchOutcome) (m : GridMachine) : GridMachine :=
  match findAttemptA i m.attempts with
  | none => m
  | some a =>
    if a.phase = .awaitingResponse then
      match respStage a.aborted r with
      | .ok _ => { m with attempts := setPhaseA i .awaitingJson m.attempts }
      | .error e =>
          { m with result := gridCatch e m.result
                   attempts := setPhaseA i .done m.attempts }
    else m

/-- Resumption of attempt `i` at `await response.json()`: on success
`setData(result); setIsLoading(false);`, on rejection the catch block. -/
def deliverJsonA (i : Nat) (v : JsonOutcome (List Product)) (m : GridMachine) :
    GridMachine :=
  match findAttemptA i m.attempts with
  | none => m
  | some a =>
    if a.phase = .awaitingJson then
      match jsonStage a.aborted v with
      | .ok val =>
          { m with result := { m.result with data := some val, isLoading := false }
                   attempts := setPhaseA i .done m.attempts }
      | .error e =>
          { m with result := gridCatch e m.result
                   attempts := setPhaseA i .done m.attempts }
    else m

/-- Events a useGridData instance can undergo. -/
inductive EventA where
  | refetch
  | keyChange
  | deliverResp (i : Nat) (r : FetchOutcome)
  | deliverJson (i : Nat) (v : JsonOutcome (List Product))
  | unmount

/-- Small-step semantics of a useGridData instance.  `refetch` bumps the
trigger, which re-runs the effect (cleanup aborts, new attempt starts);
`keyChange` re-runs the effect the same way; `unmount` runs only the
cleanup. -/
def stepA : EventA → GridMachine → GridMachine
  | .refetch, m => issueA (refetchData m)
  | .keyChange, m => issueA m
  | .deliverResp i r, m => deliverRespA i r m
  | .deliverJson i v, m => deliverJsonA i v m
  | .unmount, m => { m with attempts := abortA m.current m.attempts }

def runA : List EventA → GridMachine → GridMachine
  | [], m => m
  | e :: es, m => runA es (stepA e m)

/-- Mount of a useGridData instance: the `useState` initialisers
(`data = null`, `isLoading = true`, `error = null`, `refetchTrigger = 0`)
followed by the first effect run. -/
def gridInit : GridMachine :=
  issueA
    { result := ⟨none, true, none⟩
      refetchTrigger := 0
      attempts := []
      current := 0
      nextId := 0
      attemptsIssued := 0 }

/-- A machine state reachable from mount. -/
def ReachableA (m : GridMachine) : Prop :=
  ∃ es : List EventA, runA es gridInit = m

/-! ## Unit B: usePollingFetch -/

/-- The state triple exposed by `usePollingFetch`:
`data: T | null`, `isLoading: boolean`, `error: boolean`. -/
structure PollResult (α : Type) where
  data : Option α
  isLoading : Bool
  error : Bool
deriving DecidableEq

/-- usePollingFetch's catch block: swallow `AbortError`, otherwise
`setError(true)` and `setIsLoading(false)`. -/
def pollCatch {α : Type} (e : JsError) (r : PollResult α) : PollResult α :=
  if e.isAbort then r
  else { r with error := true, isLoading := false }

/-- One fetch attempt of usePollingFetch.  Unlike Unit A, attempts carry no
abort flag of their own: every attempt of one effect run (the initial
`fetchData()` and every `setInterval` tick) passes the signal of the single
`abortController` created at the top of the effect. -/
structure AttemptB where
  id : Nat
  phase : Phase
deriving DecidableEq

def findAttemptB (i : Nat) (as : List AttemptB) : Option AttemptB :=
  as.find? (fun a => a.id == i)

def setPhaseB (i : Nat) (p : Phase) (as : List AttemptB) : List AttemptB :=
  as.map (fun a => if a.id == i then { a with phase := p } else a)

/-- A usePollingFetch effect run: result state, the shared controller's
aborted flag, the `setInterval` registration (its period, `none` when no
timer was registered or it was cleared), the current time and the time the
next tick is due, the attempts and counters. -/
structure PollMachine (α : Type) where
  result : PollResult α
  aborted : Bool
  intervalId : Option Nat
  now : Nat
  nextFire : Option Nat
  attempts : List AttemptB
  nextId : Nat
  attemptsIssued : Nat
deriving DecidableEq

/-- Mount of a usePollingFetch instance at a given `interval` argument:
`useState` initialisers (`data = null`, `isLoading = true`, `error = false`),
then the effect body: create the controller, run `fetchData()` (whose
synchronous prefix is `setIsLoading(true); setError(false);` before the
request is issued), and register the timer only under the JS test
`interval && interval > 0` (so `undefined` and `0` register nothing). -/
def pollSetup (α : Type) (interval : Option Nat) : PollMachine α :=
  let sched : Option Nat :=
    match interval with
    | some T => if 0 < T then some T else none
    | none => none
  { result := { data := none, isLoading := true, error := false }
    aborted := false
    intervalId := sched
    now := 0
    nextFire := sched
    attempts := [⟨0, .awaitingResponse⟩]
    nextId := 1
    attemptsIssued := 1 }

/-- A `setInterval` tick: only possible while the registration is live; it
calls `fetchData()` again, which runs the synchronous prefix
`setIsLoading(true); setError(false);` and issues a new request carrying the
same controller's signal.  Nothing aborts the attempts already pending. -/
def tickB {α : Type} (m : PollMachine α) : PollMachine α :=
  match m.intervalId, m.nextFire with
  | some T, some t =>
      { m with
        result := { m.result with isLoading := true, error := false }
        attempts := m.attempts ++ [⟨m.nextId, .awaitingResponse⟩]
        nextId := m.nextId + 1
        attemptsIssued := m.attemptsIssued + 1
        now := t
        nextFire := some (t + T) }
  | _, _ => m

/-- Resumption of attempt `i` at `await fetch(...)`; the aborted flag is the
shared controller's. -/
def deliverRespB {α : Type} (i : Nat) (r : FetchOutcome) (m : PollMachine α) :
    PollMachine α :=
  match findAttemptB i m.attempts with
  | none => m
  | some a =>
    if a.phase = .awaitingResponse then
      match respStage m.aborted r with
      | .ok _ => { m with attempts := setPhaseB i .awaitingJson m.attempts }
      | .error e =>
          { m with result := pollCatch e m.result
                   attempts := setPhaseB i .done m.attempts }
    else m

/-- Resumption of attempt `i` at `await response.json()`: on success
`setData(result); setIsLoading(false);`, on rejection the catch block. -/
def deliverJsonB {α : Type} (i : Nat) (v : JsonOutcome α) (m : PollMachine α) :
    PollMachine α :=
  match findAttemptB i m.attempts with
  | none => m
  | some a =>
    if a.phase = .awaitingJson then
      match jsonStage m.aborted v with
      | .ok val =>
          { m with result := { m.result with data := some val, isLoading := false }
                   attempts := setPhaseB i .done m.attempts }
      | .error e =>
          { m with result := pollCatch e m.result
                   attempts := setPhaseB i .done m.attempts }
    else m

/-- Events a usePollingFetch effect run can undergo.  `cleanup` is the effect
cleanup (unmount or `url`/`interval` change): `abortController.abort()` and
`clearInterval(intervalId)`. -/
inductive EventB (α : Type) where
  | tick
  | deliverResp (i : Nat) (r : FetchOutcome)
  | deliverJson (i : Nat) (v : JsonOutcome α)
  | cleanup

/-- Small-step semantics of a usePollingFetch effect run. -/
def stepB {α : Type} : EventB α → PollMachine α → PollMachine α
  | .tick, m => tickB m
  | .deliverResp i r, m => deliverRespB i r m
  | .deliverJson i v, m => deliverJsonB i v m
  | .cleanup, m => { m with aborted := true, intervalId := none, nextFire := none }

def runB {α : Type} : List (EventB α) → PollMachine α → PollMachine α
  | [], m => m
  | e :: es, m => runB es (stepB e m)

/-- A usePollingFetch state reachable from some mount. -/
def ReachableB {α : Type} (m : PollMachine α) : Prop :=
  ∃ (interval : Option Nat) (es : List (EventB α)), runB es (pollSetup α interval) = m

/-! ## ProductGrid render-props boundary -/

/-- The `ProductGridRenderState` shape from the ProductGrid component: here `data` is a
plain `Product[]`, not nullable. -/
structure ProductGridRenderState where
  isLoading : Bool
  data : List Product
  error : Option String

/-- ProductGrid's hand-off to its render function:
`{ isLoading, data: data ?? [], error, refetchData }`. -/
def renderState (r : GridResult) : ProductGridRenderState :=
  { isLoading := r.isLoading
    data := r.data.getD []
    error := r.error }

/-! ## useCallback memoisation of refetchData -/

/-- A `useCallback` memo cell: the identity of the stored function value and
the dependency list it was stored with.  Function identities are modelled as
numbers; each render would allocate a fresh identity for the freshly created
closure. -/
structure CallbackCell where
  fnId : Nat
  deps : List Nat
deriving DecidableEq

/-- React's `useCallback(fn, deps)`: return the memoised function when the
dependency list is unchanged, otherwise store the freshly created one. -/
def useCallback (fresh : Nat) (deps : List Nat) (cell : Option CallbackCell) :
    Nat × CallbackCell :=
  match cell with
  | some c => if c.deps = deps then (c.fnId, c) else (fresh, ⟨fresh, deps⟩)
  | none => (fresh, ⟨fresh, deps⟩)

/-- useGridData's call site: `useCallback(() => setRefetchTrigger(...), [])` —
the dependency list is the empty array. -/
def gridRefetchCallback (fresh : Nat) (cell : Option CallbackCell) :
    Nat × CallbackCell :=
  useCallback fresh [] cell

/-- The function identities `refetchData` takes over a sequence of renders of
one hook instance: `freshes` supplies the identity the closure freshly created
on each render would have. -/
def renderIds : Option CallbackCell → List Nat → List Nat
  | _, [] => []
  | cell, f :: fs =>
      (gridRefetchCallback f cell).1 ::
        renderIds (some (gridRefetchCallback f cell).2) fs

/-! ## Helper lemmas -/

theorem gridCatch_abort (r : GridResult) : gridCatch abortError r = r := by
  simp [gridCatch, abortError, JsError.isAbort]

theorem pollCatch_abort {α : Type} (r : PollResult α) : pollCatch abortError r = r := by
  simp [pollCatch, abortError, JsError.isAbort]

theorem respStage_aborted (r : FetchOutcome) : respStage true r = .error abortError := by
  simp [respStage]

theorem jsonStage_aborted {α : Type} (v : JsonOutcome α) :
    jsonStage true v = .error abortError := by
  simp [jsonStage]

theorem findAttemptA_mem {i : Nat} {as : List AttemptA} {a : AttemptA}
    (h : findAttemptA i as = some a) : a ∈ as ∧ a.id = i := by
  refine ⟨List.mem_of_find?_eq_some h, ?_⟩
  have hp := List.find?_some h
  simpa using hp

theorem mem_setPhaseA {i : Nat} {p : Phase} {as : List AttemptA} {a : AttemptA}
    (h : a ∈ setPhaseA i p as) : ∃ b ∈ as, a.id = b.id ∧ a.aborted = b.aborted := by
  obtain ⟨b, hb, hfb⟩ := List.mem_map.mp h
  refine ⟨b, hb, ?_⟩
  by_cases hc : b.id == i <;> simp [hc] at hfb <;> subst hfb <;> simp

theorem mem_abortA {cur : Nat} {as : List AttemptA} {a : AttemptA}
    (h : a ∈ abortA cur as) :
    ∃ b ∈ as, a.id = b.id ∧ (a.aborted = b.aborted ∨ (a.aborted = true ∧ a.id = cur)) := by
  obtain ⟨b, hb, hfb⟩ := List.mem_map.mp h
  refine ⟨b, hb, ?_⟩
  by_cases hc : b.id == cur
  · simp [hc] at hfb
    subst hfb
    simp_all [Nat.beq_eq_true_eq]
  · simp [hc] at hfb
    subst hfb
    simp

/-- Invariant: every attempt other than the current (most recently issued) one
has had its controller aborted. -/
def staleAborted (m : GridMachine) : Prop :=
  ∀ a ∈ m.attempts, a.id ≠ m.current → a.aborted = true

theorem staleAborted_issueA {m : GridMachine} (h : staleAborted m) :
    staleAborted (issueA m) := by
  intro a ha hne
  simp only [issueA] at ha hne
  rcases List.mem_append.mp ha with hl | hr
  · obtain ⟨b, hb, hfb⟩ := List.mem_map.mp hl
    by_cases hc : b.id == m.current
    · rw [if_pos hc] at hfb
      rw [← hfb]
    · rw [if_neg hc] at hfb
      rw [← hfb]
      exact h b hb (fun heq => hc (by simp [heq]))
  · simp at hr
    rw [hr] at hne
    simp at hne

theorem staleAborted_abortA_self {m : GridMachine} (h : staleAborted m) :
    staleAborted { m with attempts := abortA m.current m.attempts } := by
  intro a ha hne
  simp only at ha hne
  obtain ⟨b, hb, hfb⟩ := List.mem_map.mp ha
  by_cases hc : b.id == m.current
  · simp [hc] at hfb
    subst hfb
    simp
  · simp [hc] at hfb
    subst hfb
    simp [Nat.beq_eq_true_eq] at hc
    exact h b hb hc

theorem staleAborted_setPhaseA {m : GridMachine} (i : Nat) (p : Phase)
    (h : staleAborted m) :
    staleAborted { m with attempts := setPhaseA i p m.attempts } := by
  intro a ha hne
  obtain ⟨b, hb, hid, hab⟩ := mem_setPhaseA ha
  rw [hab]
  exact h b hb (by rw [← hid]; exact hne)

theorem staleAborted_stepA {m : GridMachine} (e : EventA) (h : staleAborted m) :
    staleAborted (stepA e m) := by
  cases e with
  | refetch => exact staleAborted_issueA h
  | keyChange => exact staleAborted_issueA h
  | unmount => exact staleAborted_abortA_self h
  | deliverResp i r =>
      simp only [stepA, deliverRespA]
      cases hf : findAttemptA i m.attempts with
      | none => exact h
      | some a =>
          by_cases hp : a.phase = Phase.awaitingResponse <;> simp [hp]
          · cases respStage a.aborted r with
            | ok u => exact staleAborted_setPhaseA i Phase.awaitingJson h
            | error e => exact staleAborted_setPhaseA i Phase.done h
          · exact h
  | deliverJson i v =>
      simp only [stepA, deliverJsonA]
      cases hf : findAttemptA i m.attempts with
      | none => exact h
      | some a =>
          by_cases hp : a.phase = Phase.awaitingJson <;> simp [hp]
          · cases jsonStage a.aborted v with
            | ok val => exact staleAborted_setPhaseA i Phase.done h
            | error e => exact staleAborted_setPhaseA i Phase.done h
          · exact h

theorem staleAborted_runA {m : GridMachine} (es : List EventA) (h : staleAborted m) :
    staleAborted (runA es m) := by
  induction es generalizing m with
  | nil => exact h
  | cons e es ih => exact ih (staleAborted_stepA e h)

theorem staleAborted_gridInit : staleAborted gridInit := by
  intro a ha hne
  simp [gridInit, issueA, abortA] at ha
  rw [ha] at hne
  simp [gridInit, issueA] at hne

theorem reachableA_staleAborted {m : GridMachine} (h : ReachableA m) :
    staleAborted m := by
  obtain ⟨es, rfl⟩ := h
  exact staleAborted_runA es staleAborted_gridInit

theorem deliverRespA_aborted {i : Nat} {m : GridMachine} {a : AttemptA}
    (hf : findAttemptA i m.attempts = some a) (hab : a.aborted = true)
    (r : FetchOutcome) : (deliverRespA i r m).result = m.result := by
  simp only [deliverRespA, hf]
  by_cases hp : a.phase = Phase.awaitingResponse <;> simp [hp]
  rw [hab, respStage_aborted]
  simp [gridCatch_abort]

theorem deliverJsonA_aborted {i : Nat} {m : GridMachine} {a : AttemptA}
    (hf : findAttemptA i m.attempts = some a) (hab : a.aborted = true)
    (v : JsonOutcome (List Product)) : (deliverJsonA i v m).result = m.result := by
  simp only [deliverJsonA, hf]
  by_cases hp : a.phase = Phase.awaitingJson <;> simp [hp]
  rw [hab, jsonStage_aborted]
  simp [gridCatch_abort]

theorem deliverRespB_aborted {α : Type} {m : PollMachine α} (hab : m.aborted = true)
    (i : Nat) (r : FetchOutcome) : (deliverRespB i r m).result = m.result := by
  simp only [deliverRespB]
  cases hf : findAttemptB i m.attempts with
  | none => rfl
  | some a =>
      by_cases hp : a.phase = Phase.awaitingResponse <;> simp [hp]
      rw [hab, respStage_aborted]
      simp [pollCatch_abort]

theorem deliverJsonB_aborted {α : Type} {m : PollMachine α} (hab : m.aborted = true)
    (i : Nat) (v : JsonOutcome α) : (deliverJsonB i v m).result = m.result := by
  simp only [deliverJsonB]
  cases hf : findAttemptB i m.attempts with
  | none => rfl
  | some a =>
      by_cases hp : a.phase = Phase.awaitingJson <;> simp [hp]
      rw [hab, jsonStage_aborted]
      simp [pollCatch_abort]

/-- Invariant: the current attempt is the most recently issued one (its id is
the largest issued so far). -/
def idsFresh (m : GridMachine) : Prop :=
  m.current + 1 = m.nextId ∧ ∀ a ∈ m.attempts, a.id < m.nextId

theorem idsFresh_issueA {m : GridMachine} (h : ∀ a ∈ m.attempts, a.id < m.nextId) :
    idsFresh (issueA m) := by
  refine ⟨rfl, ?_⟩
  intro a ha
  simp only [issueA] at ha
  rcases List.mem_append.mp ha with hl | hr
  · obtain ⟨b, hb, hfb⟩ := List.mem_map.mp hl
    have hid : a.id = b.id := by
      by_cases hc : b.id == m.current
      · rw [if_pos hc] at hfb
        rw [← hfb]
      · rw [if_neg hc] at hfb
        rw [← hfb]
    rw [hid]
    exact Nat.lt_succ_of_lt (h b hb)
  · simp at hr
    rw [hr]
    simp [issueA]


theorem idsFresh_stepA {m : GridMachine} (e : EventA) (h : idsFresh m) :
    idsFresh (stepA e m) := by
  obtain ⟨hc, hlt⟩ := h
  cases e with
  | refetch => exact idsFresh_issueA hlt
  | keyChange => exact idsFresh_issueA hlt
  | unmount =>
      refine ⟨hc, ?_⟩
      intro a ha
      obtain ⟨b, hb, hfb⟩ := List.mem_map.mp ha
      have hid : a.id = b.id := by
        by_cases hcb : b.id == m.current
        · rw [if_pos hcb] at hfb
          rw [← hfb]
        · rw [if_neg hcb] at hfb
          rw [← hfb]
      rw [hid]
      exact hlt b hb
  | deliverResp i r =>
      simp only [stepA, deliverRespA]
      cases hf : findAttemptA i m.attempts with
      | none => exact ⟨hc, hlt⟩
      | some a =>
          by_cases hp : a.phase = Phase.awaitingResponse <;> simp [hp]
          · have hset : ∀ (p : Phase), ∀ b ∈ setPhaseA i p m.attempts, b.id < m.nextId := by
              intro p b hb
              obtain ⟨b', hb', hid, _⟩ := mem_setPhaseA hb
              rw [hid]
              exact hlt b' hb'
            cases respStage a.aborted r with
            | ok u => exact ⟨hc, hset Phase.awaitingJson⟩
            | error e => exact ⟨hc, hset Phase.done⟩
          · exact ⟨hc, hlt⟩
  | deliverJson i v =>
      simp only [stepA, deliverJsonA]
      cases hf : findAttemptA i m.attempts with
      | none => exact ⟨hc, hlt⟩
      | some a =>
          by_cases hp : a.phase = Phase.awaitingJson <;> simp [hp]
          · have hset : ∀ (p : Phase), ∀ b ∈ setPhaseA i p m.attempts, b.id < m.nextId := by
              intro p b hb
              obtain ⟨b', hb', hid, _⟩ := mem_setPhaseA hb
              rw [hid]
              exact hlt b' hb'
            cases jsonStage a.aborted v with
            | ok val => exact ⟨hc, hset Phase.done⟩
            | error e => exact ⟨hc, hset Phase.done⟩
          · exact ⟨hc, hlt⟩

theorem idsFresh_runA {m : GridMachine} (es : List EventA) (h : idsFresh m) :
    idsFresh (runA es m) := by
  induction es generalizing m with
  | nil => exact h
  | cons e es ih => exact ih (idsFresh_stepA e h)

theorem idsFresh_gridInit : idsFresh gridInit := by
  constructor
  · rfl
  · intro a ha
    simp [gridInit, issueA, abortA] at ha
    rw [ha]
    simp [gridInit, issueA]

theorem reachableA_idsFresh {m : GridMachine} (h : ReachableA m) : idsFresh m := by
  obtain ⟨es, rfl⟩ := h
  exact idsFresh_runA es idsFresh_gridInit

/-- Calling `refetchData()` n times (each call re-runs the effect through the
trigger change). -/
def refetchN : Nat → GridMachine → GridMachine
  | 0, m => m
  | n + 1, m => refetchN n (stepA EventA.refetch m)

theorem refetchN_counts (n : Nat) (m : GridMachine) :
    (refetchN n m).refetchTrigger = m.refetchTrigger + n ∧
    (refetchN n m).attemptsIssued = m.attemptsIssued + n := by
  induction n generalizing m with
  | zero => simp [refetchN]
  | succ n ih =>
      have h := ih (stepA EventA.refetch m)
      simp only [refetchN] at h ⊢
      have ht : (stepA EventA.refetch m).refetchTrigger = m.refetchTrigger + 1 := rfl
      have ha : (stepA EventA.refetch m).attemptsIssued = m.attemptsIssued + 1 := rfl
      omega

theorem isAbort_plainError (msg : String) : (JsError.error "Error" msg).isAbort = false := rfl

theorem renderIds_memo (fs : List Nat) (c : CallbackCell) (hdeps : c.deps = []) :
    renderIds (some c) fs = fs.map (fun _ => c.fnId) := by
  induction fs with
  | nil => rfl
  | cons f fs ih =>
      simp only [renderIds, gridRefetchCallback, useCallback, hdeps, if_pos, List.map]
      exact congrArg (c.fnId :: ·) ih

/-! ## Claim theorems -/

/-- C1: for Unit A (useGridData), in every reachable state of a hook instance,
every attempt other than the current (most recently issued) one has been
cancelled on the effect cleanup, and the resumption of any such stale attempt
— at the fetch await or at the json await, with any outcome the network could
supply — leaves the exposed result state (data, isLoading, error) exactly
unchanged; only the most recently issued attempt can mutate it. -/
theorem useGridData_only_current_attempt_mutates (m : GridMachine)
    (hm : ReachableA m) :
    (∀ a ∈ m.attempts, a.id ≠ m.current → a.aborted = true) ∧
    (∀ i, i ≠ m.current →
      (∀ r, (stepA (EventA.deliverResp i r) m).result = m.result) ∧
      (∀ v, (stepA (EventA.deliverJson i v) m).result = m.result)) := by
  have hs := reachableA_staleAborted hm
  refine ⟨hs, ?_⟩
  intro i hi
  constructor
  · intro r
    cases hf : findAttemptA i m.attempts with
    | none => simp [stepA, deliverRespA, hf]
    | some a =>
        obtain ⟨hmem, hida⟩ := findAttemptA_mem hf
        exact deliverRespA_aborted hf (hs a hmem (by rw [hida]; exact hi)) r
  · intro v
    cases hf : findAttemptA i m.attempts with
    | none => simp [stepA, deliverJsonA, hf]
    | some a =>
        obtain ⟨hmem, hida⟩ := findAttemptA_mem hf
        exact deliverJsonA_aborted hf (hs a hmem (by rw [hida]; exact hi)) v

/-- Witness for C1: after one `refetch`, delivering a successful response to
the superseded attempt 0 does not change the result state. -/
theorem useGridData_only_current_attempt_mutates_witness :
    (stepA (EventA.deliverResp 0 (FetchOutcome.http true 200))
        (runA [EventA.refetch] gridInit)).result
      = (runA [EventA.refetch] gridInit).result :=
  ((useGridData_only_current_attempt_mutates (runA [EventA.refetch] gridInit)
      ⟨[EventA.refetch], rfl⟩).2 0 (by decide)).1 (FetchOutcome.http true 200)

/-- C8: for Unit A, calling `refetchData()` n times without a key change
increments the trigger counter by exactly n and issues exactly n new fetch
attempts; each call by itself only bumps the monotonically increasing counter
(result state and attempt list untouched by the call proper), and the effect
re-run each call provokes aborts the predecessor attempt's controller. -/
theorem useGridData_refetch_n_attempts (m : GridMachine) (hm : ReachableA m)
    (n : Nat) :
    (refetchN n m).refetchTrigger = m.refetchTrigger + n ∧
    (refetchN n m).attemptsIssued = m.attemptsIssued + n ∧
    (refetchData m).refetchTrigger = m.refetchTrigger + 1 ∧
    (refetchData m).result = m.result ∧
    (refetchData m).attempts = m.attempts ∧
    (∀ a ∈ (stepA EventA.refetch m).attempts, a.id = m.current → a.aborted = true) := by
  obtain ⟨hc, hlt⟩ := reachableA_idsFresh hm
  refine ⟨(refetchN_counts n m).1, (refetchN_counts n m).2, rfl, rfl, rfl, ?_⟩
  intro a ha hid
  simp only [stepA, issueA, refetchData] at ha
  rcases List.mem_append.mp ha with hl | hr
  · obtain ⟨b, hb, hfb⟩ := List.mem_map.mp hl
    by_cases hcb : b.id == m.current
    · rw [if_pos hcb] at hfb
      rw [← hfb]
    · rw [if_neg hcb] at hfb
      rw [← hfb] at hid
      exact absurd (by simp [hid]) hcb
  · simp at hr
    rw [hr] at hid
    simp at hid
    exact absurd hid (by omega)

/-- Witness for C8: two refetch calls from the mounted instance. -/
theorem useGridData_refetch_n_attempts_witness :
    (refetchN 2 gridInit).refetchTrigger = gridInit.refetchTrigger + 2 ∧
    (refetchN 2 gridInit).attemptsIssued = gridInit.attemptsIssued + 2 ∧
    (refetchData gridInit).refetchTrigger = gridInit.refetchTrigger + 1 ∧
    (refetchData gridInit).result = gridInit.result ∧
    (refetchData gridInit).attempts = gridInit.attempts ∧
    (∀ a ∈ (stepA EventA.refetch gridInit).attempts,
        a.id = gridInit.current → a.aborted = true) :=
  useGridData_refetch_n_attempts gridInit ⟨[], rfl⟩ 2

/-- C9: the `refetchData` returned by useGridData has the same identity on
every render of the instance: `useCallback` with the empty dependency array
returns the function created on the first render on all later renders, no
matter which fresh closure identities those re-renders would otherwise
produce (state-only updates from invoking it or from data/isLoading/error
changes included). -/
theorem useGridData_refetch_stable_identity (f0 : Nat) (fs : List Nat) :
    renderIds none (f0 :: fs) = f0 :: fs.map (fun _ => f0) := by
  simp only [renderIds, gridRefetchCallback, useCallback]
  exact congrArg (f0 :: ·) (renderIds_memo fs ⟨f0, []⟩ rfl)

/-- C5: in either hook, a cancelled (aborted) attempt's resolution — at either
await, with any outcome — performs no state mutation and surfaces no error:
the AbortError is swallowed and data, isLoading and error keep their values. -/
theorem cancelled_attempts_are_silent :
    (∀ (m : GridMachine) (i : Nat) (a : AttemptA),
        findAttemptA i m.attempts = some a → a.aborted = true →
        (∀ r, (deliverRespA i r m).result = m.result) ∧
        (∀ v, (deliverJsonA i v m).result = m.result)) ∧
    (∀ (α : Type) (m : PollMachine α), m.aborted = true →
        ∀ i, (∀ r, (deliverRespB i r m).result = m.result) ∧
        (∀ v, (deliverJsonB i v m).result = m.result)) := by
  constructor
  · intro m i a hf hab
    exact ⟨deliverRespA_aborted hf hab, deliverJsonA_aborted hf hab⟩
  · intro α m hab i
    exact ⟨deliverRespB_aborted hab i, deliverJsonB_aborted hab i⟩

/-- Witness for C5: the superseded attempt 0 of Unit A after a refetch, and
any delivery to Unit B after its cleanup ran. -/
theorem cancelled_attempts_are_silent_witness :
    (deliverRespA 0 (FetchOutcome.netErr JsError.other)
        (runA [EventA.refetch] gridInit)).result
      = (runA [EventA.refetch] gridInit).result ∧
    (deliverJsonB 0 (JsonOutcome.parsed 7)
        (stepB EventB.cleanup (pollSetup Nat none))).result
      = (stepB EventB.cleanup (pollSetup Nat none)).result :=
  ⟨(cancelled_attempts_are_silent.1 (runA [EventA.refetch] gridInit) 0
      ⟨0, true, Phase.awaitingResponse⟩ rfl rfl).1 (FetchOutcome.netErr JsError.other),
   (cancelled_attempts_are_silent.2 Nat
      (stepB EventB.cleanup (pollSetup Nat none)) rfl 0).2 (JsonOutcome.parsed 7)⟩

/-- C4: in either hook, a non-aborted attempt whose response comes back with a
non-2xx status (`ok = false`, e.g. 500) settles with `isLoading = false`, the
error set — in Unit A a message carrying the status code, in Unit B the
boolean flag `true` — and `data` untouched (neither the attempt's start nor
this settling changes it). -/
theorem http_error_settles :
    (∀ (m : GridMachine) (i status : Nat) (a : AttemptA),
        findAttemptA i m.attempts = some a → a.aborted = false →
        a.phase = Phase.awaitingResponse →
        (deliverRespA i (FetchOutcome.http false status) m).result.isLoading = false ∧
        (deliverRespA i (FetchOutcome.http false status) m).result.error
          = some ("HTTP error! status: " ++ toString status) ∧
        (deliverRespA i (FetchOutcome.http false status) m).result.data
          = m.result.data) ∧
    (∀ m : GridMachine, (issueA m).result.data = m.result.data) ∧
    (∀ (α : Type) (m : PollMachine α) (i status : Nat) (a : AttemptB),
        findAttemptB i m.attempts = some a → m.aborted = false →
        a.phase = Phase.awaitingResponse →
        (deliverRespB i (FetchOutcome.http false status) m).result.isLoading = false ∧
        (deliverRespB i (FetchOutcome.http false status) m).result.error = true ∧
        (deliverRespB i (FetchOutcome.http false status) m).result.data
          = m.result.data) ∧
    (∀ (α : Type) (m : PollMachine α), (tickB m).result.data = m.result.data) := by
  refine ⟨?_, fun m => rfl, ?_, ?_⟩
  · intro m i status a hf hab hp
    have hstep : (deliverRespA i (FetchOutcome.http false status) m).result
        = { m.result with
              isLoading := false
              error := some ("HTTP error! status: " ++ toString status) } := by
      simp [deliverRespA, hf, hp, hab, respStage, gridCatch, isAbort_plainError,
        JsError.messageOf]
    refine ⟨?_, ?_, ?_⟩ <;> rw [hstep]
  · intro α m i status a hf hab hp
    have hstep : (deliverRespB i (FetchOutcome.http false status) m).result
        = { m.result with isLoading := false, error := true } := by
      simp [deliverRespB, hf, hp, hab, respStage, pollCatch, isAbort_plainError]
    refine ⟨?_, ?_, ?_⟩ <;> rw [hstep]
  · intro α m
    simp only [tickB]
    cases m.intervalId <;> cases m.nextFire <;> rfl

/-- Witness for C4: a 500 response to the fresh attempt of a just-mounted
useGridData instance, and to the initial attempt of usePollingFetch. -/
theorem http_error_settles_witness :
    (deliverRespA 0 (FetchOutcome.http false 500) gridInit).result.isLoading = false ∧
    (deliverRespA 0 (FetchOutcome.http false 500) gridInit).result.error
      = some ("HTTP error! status: " ++ toString 500) ∧
    (deliverRespA 0 (FetchOutcome.http false 500) gridInit).result.data
      = gridInit.result.data ∧
    (deliverRespB 0 (FetchOutcome.http false 500) (pollSetup Nat none)).result.isLoading
      = false ∧
    (deliverRespB 0 (FetchOutcome.http false 500) (pollSetup Nat none)).result.error
      = true := by
  obtain ⟨hA, _, hB, _⟩ := http_error_settles
  obtain ⟨h1, h2, h3⟩ :=
    hA gridInit 0 500 ⟨0, false, Phase.awaitingResponse⟩ rfl rfl rfl
  obtain ⟨h4, h5, _⟩ :=
    hB Nat (pollSetup Nat none) 0 500 ⟨0, Phase.awaitingResponse⟩ rfl rfl rfl
  exact ⟨h1, h2, h3, h4, h5⟩

/-- C10: every fetch attempt start — Unit A's effect run (mount, key change or
refetch), Unit B's initial fetch at effect setup and every polling tick —
synchronously sets `isLoading` to true and resets the error field (`null` in
Unit A, `false` in Unit B) before the request resolves, leaving `data` alone;
so an error left by a failed attempt is no longer observable once the next
attempt is in flight. -/
theorem attempt_start_resets_state :
    (∀ m : GridMachine,
        (issueA m).result.isLoading = true ∧ (issueA m).result.error = none ∧
        (issueA m).result.data = m.result.data) ∧
    (∀ (α : Type) (m : PollMachine α) (T t : Nat),
        m.intervalId = some T → m.nextFire = some t →
        (tickB m).result.isLoading = true ∧ (tickB m).result.error = false ∧
        (tickB m).result.data = m.result.data) ∧
    (∀ (α : Type) (i : Option Nat),
        (pollSetup α i).result.isLoading = true ∧ (pollSetup α i).result.error = false) := by
  refine ⟨fun m => ⟨rfl, rfl, rfl⟩, ?_, fun α i => ⟨rfl, rfl⟩⟩
  intro α m T t hT ht
  refine ⟨?_, ?_, ?_⟩ <;> simp [tickB, hT, ht]

/-- Witness for C10: a tick of a usePollingFetch instance polling at 5ms whose
previous attempt had failed (error flag set). -/
theorem attempt_start_resets_state_witness :
    (tickB (deliverRespB 0 (FetchOutcome.http false 500)
        (pollSetup Nat (some 5)))).result.isLoading = true ∧
    (tickB (deliverRespB 0 (FetchOutcome.http false 500)
        (pollSetup Nat (some 5)))).result.error = false ∧
    (tickB (deliverRespB 0 (FetchOutcome.http false 500)
        (pollSetup Nat (some 5)))).result.data
      = (deliverRespB 0 (FetchOutcome.http false 500)
          (pollSetup Nat (some 5))).result.data :=
  (attempt_start_resets_state.2.1 Nat
    (deliverRespB 0 (FetchOutcome.http false 500) (pollSetup Nat (some 5)))
    5 5 rfl rfl)

/-! ## Whole-attempt denotation (try/catch structure) -/

/-- useGridData's catch clause as a fallible computation: it handles every
thrown value and never rethrows (its own statements cannot throw). -/
def gridCatchE (e : JsError) (st : GridResult) : Except JsError GridResult :=
  if e.isAbort then .ok st
  else .ok { st with error := some e.messageOf, isLoading := false }

/-- usePollingFetch's catch clause as a fallible computation. -/
def pollCatchE {α : Type} (e : JsError) (st : PollResult α) :
    Except JsError (PollResult α) :=
  if e.isAbort then .ok st
  else .ok { st with error := true, isLoading := false }

/-- One complete execution of useGridData's `fetchData` after its synchronous
prefix: the try block chains the two awaits and the success update
(`setData`/`setIsLoading`), and any value it throws is handed to the catch
clause.  `a1`/`a2` are the controller's aborted flag at the two resumption
points. -/
def gridAttemptRun (a1 a2 : Bool) (r : FetchOutcome) (v : JsonOutcome (List Product))
    (st : GridResult) : Except JsError GridResult :=
  match respStage a1 r with
  | .error e => gridCatchE e st
  | .ok _ =>
    match jsonStage a2 v with
    | .error e => gridCatchE e st
    | .ok val => .ok { st with data := some val, isLoading := false }

/-- One complete execution of usePollingFetch's `fetchData` after its
synchronous prefix. -/
def pollAttemptRun {α : Type} (a1 a2 : Bool) (r : FetchOutcome) (v : JsonOutcome α)
    (st : PollResult α) : Except JsError (PollResult α) :=
  match respStage a1 r with
  | .error e => pollCatchE e st
  | .ok _ =>
    match jsonStage a2 v with
    | .error e => pollCatchE e st
    | .ok val => .ok { st with data := some val, isLoading := false }

/-! ## Unit B frame lemmas and tick iteration -/

theorem deliverRespB_frame {α : Type} (i : Nat) (r : FetchOutcome) (m : PollMachine α) :
    (deliverRespB i r m).attemptsIssued = m.attemptsIssued ∧
    (deliverRespB i r m).intervalId = m.intervalId ∧
    (deliverRespB i r m).aborted = m.aborted ∧
    (deliverRespB i r m).nextFire = m.nextFire := by
  simp only [deliverRespB]
  cases findAttemptB i m.attempts with
  | none => exact ⟨rfl, rfl, rfl, rfl⟩
  | some a =>
      by_cases hp : a.phase = Phase.awaitingResponse <;> simp only [hp, if_true, if_false]
      · cases respStage m.aborted r with
        | ok u => exact ⟨rfl, rfl, rfl, rfl⟩
        | error e => exact ⟨rfl, rfl, rfl, rfl⟩
      · simp [hp]

theorem deliverJsonB_frame {α : Type} (i : Nat) (v : JsonOutcome α) (m : PollMachine α) :
    (deliverJsonB i v m).attemptsIssued = m.attemptsIssued ∧
    (deliverJsonB i v m).intervalId = m.intervalId ∧
    (deliverJsonB i v m).aborted = m.aborted ∧
    (deliverJsonB i v m).nextFire = m.nextFire := by
  simp only [deliverJsonB]
  cases findAttemptB i m.attempts with
  | none => exact ⟨rfl, rfl, rfl, rfl⟩
  | some a =>
      by_cases hp : a.phase = Phase.awaitingJson <;> simp only [hp, if_true, if_false]
      · cases jsonStage m.aborted v with
        | ok val => exact ⟨rfl, rfl, rfl, rfl⟩
        | error e => exact ⟨rfl, rfl, rfl, rfl⟩
      · simp [hp]

/-- With no live `setInterval` registration, no event can issue an attempt:
a tick is impossible, deliveries only resume attempts already issued, and the
cleanup only releases resources. -/
theorem runB_no_schedule {α : Type} (es : List (EventB α)) (m : PollMachine α)
    (h : m.intervalId = none) :
    (runB es m).attemptsIssued = m.attemptsIssued ∧ (runB es m).intervalId = none := by
  induction es generalizing m with
  | nil => exact ⟨rfl, h⟩
  | cons e es ih =>
      have hstep : (stepB e m).attemptsIssued = m.attemptsIssued ∧
          (stepB e m).intervalId = none := by
        cases e with
        | tick => simp [stepB, tickB, h]
        | cleanup => exact ⟨rfl, rfl⟩
        | deliverResp i r =>
            exact ⟨(deliverRespB_frame i r m).1, ((deliverRespB_frame i r m).2.1).trans h⟩
        | deliverJson i v =>
            exact ⟨(deliverJsonB_frame i v m).1, ((deliverJsonB_frame i v m).2.1).trans h⟩
      have hrest := ih (m := stepB e m) hstep.2
      simp only [runB]
      exact ⟨hrest.1.trans hstep.1, hrest.2⟩

/-- Iterate `k` consecutive `setInterval` ticks. -/
def ticksN {α : Type} : Nat → PollMachine α → PollMachine α
  | 0, m => m
  | k + 1, m => ticksN k (tickB m)

theorem ticksN_fires {α : Type} (k : Nat) (m : PollMachine α) (T t : Nat)
    (h1 : m.intervalId = some T) (h2 : m.nextFire = some t) :
    (ticksN (k + 1) m).attemptsIssued = m.attemptsIssued + (k + 1) ∧
    (ticksN (k + 1) m).now = t + k * T ∧
    (ticksN (k + 1) m).nextFire = some (t + (k + 1) * T) ∧
    (ticksN (k + 1) m).intervalId = some T := by
  induction k generalizing m t with
  | zero =>
      refine ⟨?_, ?_, ?_, ?_⟩ <;> simp [ticksN, tickB, h1, h2]
  | succ k ih =>
      have htick : (tickB m).intervalId = some T ∧ (tickB m).nextFire = some (t + T) ∧
          (tickB m).attemptsIssued = m.attemptsIssued + 1 ∧ (tickB m).now = t := by
        simp [tickB, h1, h2]
      have h' := ih (tickB m) (t + T) htick.1 htick.2.1
      have e1 : ticksN (k + 1 + 1) m = ticksN (k + 1) (tickB m) := rfl
      rw [e1]
      refine ⟨?_, ?_, ?_, h'.2.2.2⟩
      · rw [h'.1, htick.2.2.1]
        omega
      · rw [h'.2.1]
        ring
      · rw [h'.2.2.1]
        congr 1
        ring

/-- C2 fails on the code: with a positive interval, a `setInterval` tick does
NOT cancel the still-pending earlier attempt.  All attempts of one effect run
share the single `AbortController` created at the top of the effect, and
nothing aborts it on a tick.  Concrete run (interval 100): the initial
attempt 0 is still pending when the tick at t = 100 issues attempt 1; attempt
1 resolves first (status 200, body `2`), then attempt 0's late response
(status 200, body `1`) also passes the non-aborted check and overwrites the
newer data — and attempt 0's controller is still not aborted even after the
tick. -/
theorem usePollingFetch_tick_race :
    (runB [EventB.tick,
           EventB.deliverResp 1 (FetchOutcome.http true 200),
           EventB.deliverJson 1 (JsonOutcome.parsed 2)]
        (pollSetup Nat (some 100))).result.data = some 2 ∧
    (runB [EventB.tick,
           EventB.deliverResp 1 (FetchOutcome.http true 200),
           EventB.deliverJson 1 (JsonOutcome.parsed 2),
           EventB.deliverResp 0 (FetchOutcome.http true 200),
           EventB.deliverJson 0 (JsonOutcome.parsed 1)]
        (pollSetup Nat (some 100))).result.data = some 1 ∧
    (runB [EventB.tick] (pollSetup Nat (some 100))).aborted = false := by
  refine ⟨rfl, rfl, rfl⟩

/-- C3 as stated is false on the code: the state exposed by usePollingFetch
to its consumers has `data = null` before the first successful attempt — the
reachable initial state of the hook already exhibits it. -/
theorem data_never_null_counterexample :
    ¬ (∀ m : PollMachine Nat, ReachableB m → m.result.data ≠ none) := by
  intro h
  exact h (pollSetup Nat none) ⟨none, [], rfl⟩ rfl

/-- C3 amended: both hooks themselves expose a nullable `data` that is `null`
prior to the first success; the concrete-default guarantee belongs to the
ProductGrid render-props component, which hands its render function
`data ?? []` — the empty list while the hook's data is null, the fetched list
once present — so product-grid consumers never need a null check. -/
theorem data_default_amended :
    gridInit.result.data = none ∧
    (∀ i : Option Nat, (pollSetup Nat i).result.data = none) ∧
    (∀ r : GridResult,
        (r.data = none → (renderState r).data = []) ∧
        (∀ l, r.data = some l → (renderState r).data = l)) := by
  refine ⟨rfl, fun i => rfl, fun r => ⟨?_, ?_⟩⟩
  · intro h
    simp [renderState, h]
  · intro l h
    simp [renderState, h]

/-- Witness for the amended C3: the render state built from the hook's
initial null data is the empty list, and from fetched data it is that list. -/
theorem data_default_amended_witness :
    (renderState ⟨none, true, none⟩).data = [] ∧
    (renderState ⟨some [], false, none⟩).data = [] :=
  ⟨(data_default_amended.2.2 ⟨none, true, none⟩).1 rfl,
   (data_default_amended.2.2 ⟨some [], false, none⟩).2 [] rfl⟩

/-- C6: no execution of either hook's `fetchData` lets an exception escape:
whatever the two awaits produce (abort, network rejection, non-2xx throw,
parse rejection) and whatever non-Error value might be thrown, the try/catch
composition always returns a state — the catch clause handles every thrown
value, never rethrows, and translates every non-abort failure into the error
field with loading cleared. -/
theorem no_unhandled_rejection :
    (∀ (a1 a2 : Bool) (r : FetchOutcome) (v : JsonOutcome (List Product))
        (st : GridResult), ∃ st2, gridAttemptRun a1 a2 r v st = .ok st2) ∧
    (∀ (e : JsError) (st : GridResult),
        ∃ st2, gridCatchE e st = .ok st2 ∧
          (e.isAbort = false → st2.error = some e.messageOf ∧ st2.isLoading = false)) ∧
    (∀ (α : Type) (a1 a2 : Bool) (r : FetchOutcome) (v : JsonOutcome α)
        (st : PollResult α), ∃ st2, pollAttemptRun a1 a2 r v st = .ok st2) ∧
    (∀ (α : Type) (e : JsError) (st : PollResult α),
        ∃ st2, pollCatchE e st = .ok st2 ∧
          (e.isAbort = false → st2.error = true ∧ st2.isLoading = false)) := by
  have hgc : ∀ (e : JsError) (st : GridResult),
      ∃ st2, gridCatchE e st = .ok st2 ∧
        (e.isAbort = false → st2.error = some e.messageOf ∧ st2.isLoading = false) := by
    intro e st
    by_cases he : e.isAbort
    · exact ⟨st, by simp [gridCatchE, he], by simp [he]⟩
    · refine ⟨{ st with error := some e.messageOf, isLoading := false }, ?_, ?_⟩
      · simp [gridCatchE, he]
      · intro hx
        exact ⟨rfl, rfl⟩
  have hpc : ∀ (α : Type) (e : JsError) (st : PollResult α),
      ∃ st2, pollCatchE e st = .ok st2 ∧
        (e.isAbort = false → st2.error = true ∧ st2.isLoading = false) := by
    intro α e st
    by_cases he : e.isAbort
    · exact ⟨st, by simp [pollCatchE, he], by simp [he]⟩
    · refine ⟨{ st with error := true, isLoading := false }, ?_, ?_⟩
      · simp [pollCatchE, he]
      · intro hx
        exact ⟨rfl, rfl⟩
  refine ⟨?_, hgc, ?_, hpc⟩
  · intro a1 a2 r v st
    simp only [gridAttemptRun]
    cases respStage a1 r with
    | error e => exact (hgc e st).imp (fun s2 hs2 => hs2.1)
    | ok u =>
        cases jsonStage a2 v with
        | error e => exact (hgc e st).imp (fun s2 hs2 => hs2.1)
        | ok val => exact ⟨_, rfl⟩
  · intro α a1 a2 r v st
    simp only [pollAttemptRun]
    cases respStage a1 r with
    | error e => exact (hpc α e st).imp (fun s2 hs2 => hs2.1)
    | ok u =>
        cases jsonStage a2 v with
        | error e => exact (hpc α e st).imp (fun s2 hs2 => hs2.1)
        | ok val => exact ⟨_, rfl⟩

/-- Witness for C6: a network rejection carrying a non-Error thrown value on a
live attempt, and the catch clause on that value. -/
theorem no_unhandled_rejection_witness :
    (∃ st2, gridAttemptRun false false (FetchOutcome.netErr JsError.other)
        (JsonOutcome.parsed []) ⟨none, true, none⟩ = .ok st2) ∧
    (∃ st2, gridCatchE JsError.other ⟨none, true, none⟩ = .ok st2 ∧
        (JsError.other.isAbort = false →
          st2.error = some JsError.other.messageOf ∧ st2.isLoading = false)) :=
  ⟨no_unhandled_rejection.1 false false (FetchOutcome.netErr JsError.other)
      (JsonOutcome.parsed []) ⟨none, true, none⟩,
   no_unhandled_rejection.2.1 JsError.other ⟨none, true, none⟩⟩

/-- C7: for Unit B — with `interval` undefined or 0 the JS guard
`interval && interval > 0` registers no timer, so the initial fetch is the
only attempt ever issued on that effect run; with `interval = T > 0` the
`k`-th tick fires at time `k·T` after setup and issues exactly one new
attempt each time; the cleanup (teardown or URL/interval change) aborts the
shared controller and clears the registration, after which no attempt is ever
issued for the old parameters (and the aborted flag silences in-flight
resolutions). -/
theorem usePollingFetch_schedule :
    ((pollSetup Nat none).intervalId = none ∧
      (pollSetup Nat (some 0)).intervalId = none ∧
      (pollSetup Nat none).attemptsIssued = 1 ∧
      (pollSetup Nat (some 0)).attemptsIssued = 1) ∧
    (∀ (α : Type) (es : List (EventB α)) (m : PollMachine α),
        m.intervalId = none →
        (runB es m).attemptsIssued = m.attemptsIssued ∧
        (runB es m).intervalId = none) ∧
    (∀ T : Nat, 0 < T →
        (pollSetup Nat (some T)).intervalId = some T ∧
        (pollSetup Nat (some T)).nextFire = some T ∧
        (∀ k : Nat,
          (ticksN (k + 1) (pollSetup Nat (some T))).attemptsIssued = 1 + (k + 1) ∧
          (ticksN (k + 1) (pollSetup Nat (some T))).now = (k + 1) * T ∧
          (ticksN (k + 1) (pollSetup Nat (some T))).nextFire = some ((k + 2) * T))) ∧
    (∀ (α : Type) (m : PollMachine α),
        (stepB EventB.cleanup m).aborted = true ∧
        (stepB EventB.cleanup m).intervalId = none ∧
        (stepB EventB.cleanup m).nextFire = none) := by
  refine ⟨⟨rfl, rfl, rfl, rfl⟩, fun α => @runB_no_schedule α, ?_, fun α m => ⟨rfl, rfl, rfl⟩⟩
  intro T hT
  have hsched : (pollSetup Nat (some T)).intervalId = some T := by
    simp [pollSetup, hT]
  have hfire : (pollSetup Nat (some T)).nextFire = some T := by
    simp [pollSetup, hT]
  refine ⟨hsched, hfire, ?_⟩
  intro k
  have h := ticksN_fires k (pollSetup Nat (some T)) T T hsched hfire
  refine ⟨?_, ?_, ?_⟩
  · rw [h.1]
    rfl
  · rw [h.2.1]
    ring
  · rw [h.2.2.1]
    congr 1
    ring

/-- Witness for C7: three ticks of a 3000ms poll land at 3000, 6000, 9000 and
issue one attempt each; the no-interval instance stays at one attempt through
an arbitrary event sequence. -/
theorem usePollingFetch_schedule_witness :
    (ticksN 3 (pollSetup Nat (some 3000))).attemptsIssued = 1 + 3 ∧
    (ticksN 3 (pollSetup Nat (some 3000))).now = 3 * 3000 ∧
    (runB [EventB.tick, EventB.tick] (pollSetup Nat none)).attemptsIssued
      = (pollSetup Nat none).attemptsIssued := by
  have h3 := (usePollingFetch_schedule.2.2.1 3000 (by decide)).2.2 2
  have h0 := (usePollingFetch_schedule.2.1 Nat [EventB.tick, EventB.tick]
    (pollSetup Nat none) rfl).1
  exact ⟨h3.1, h3.2.1, h0⟩
